import Mathlib

/-!
Shallow embedding of the client-side state layer of the `react-ecommerce`
storefront: the cart reducer (`src/store/slices/cartSlice.ts`), the product
reducer and its async-thunk lifecycle (`src/store/slices/productSlice.ts`),
the thunk's dispatch to the API client (`src/services/api.ts`), and the two
derived search filters (`ProductGrid.tsx` and `Home.tsx`).

JavaScript numbers are modelled as rationals (`ℚ`) where fractional values
can occur (prices, quantities written through `updateQuantity`) and as `ℤ`
for identifiers and counts; the exact-arithmetic model is faithful to the
arithmetic structure of the reducers (left fold with `+` and `*` starting
from `0`).  Strings are modelled by Lean `String`, with character-wise
`jsToLower` and end-trimming `jsTrim` standing for `toLowerCase` and `trim`,
and JavaScript's `String.prototype.includes` modelled as the (decidable)
contiguous-substring test on the underlying character lists.
-/

namespace Shop

/-- Product record, as in `src/types/index.ts` (`Product` interface): numeric
id, title, price, description, category, image url, and a rating consisting
of a rate and a count. -/
structure Rating where
  rate : ℚ
  count : ℤ
deriving DecidableEq, Repr

structure Product where
  id : ℤ
  title : String
  price : ℚ
  description : String
  category : String
  image : String
  rating : Rating
deriving DecidableEq, Repr

/-- Cart line item, as in `src/types/index.ts` (`CartItem extends Product`):
all product fields plus a quantity.  The quantity is a JavaScript number, so
it is modelled as `ℚ` (the reducer writes arbitrary payload values through). -/
structure CartItem extends Product where
  quantity : ℚ
deriving DecidableEq, Repr

/-- Cart slice state, as in `src/types/index.ts` (`CartState`). -/
structure CartState where
  items : List CartItem
  total : ℚ
  isOpen : Bool
deriving DecidableEq, Repr

/-- Initial cart state from `cartSlice.ts`: empty items, zero total, closed. -/
def initialCartState : CartState :=
  { items := [], total := 0, isOpen := false }

/-- The total recomputation used by every cart reducer:
`state.items.reduce((sum, item) => sum + (item.price * item.quantity), 0)`. -/
def computeTotal (items : List CartItem) : ℚ :=
  items.foldl (fun sum item => sum + item.price * item.quantity) 0

/-- Increment the quantity of the first item with the given id by 1, leaving
everything else alone: this is the effect of `existingItem.quantity += 1`
after `state.items.find(item => item.id === action.payload.id)`. -/
def incQuantityOfFirst (pid : ℤ) : List CartItem → List CartItem
  | [] => []
  | i :: rest =>
    if i.id == pid then { i with quantity := i.quantity + 1 } :: rest
    else i :: incQuantityOfFirst pid rest

/-- Set the quantity of the first item with the given id to `q`, the effect
of `item.quantity = action.payload.quantity` after a `find`. -/
def setQuantityOfFirst (pid : ℤ) (q : ℚ) : List CartItem → List CartItem
  | [] => []
  | i :: rest =>
    if i.id == pid then { i with quantity := q } :: rest
    else i :: setQuantityOfFirst pid q rest

/-- `addToCart` reducer from `cartSlice.ts`: if an item with the product's id
exists, increment its quantity; otherwise push `{...product, quantity: 1}`;
then recompute the total. -/
def addToCart (state : CartState) (p : Product) : CartState :=
  match state.items.find? (fun item => item.id == p.id) with
  | some _ =>
    let items := incQuantityOfFirst p.id state.items
    { state with items := items, total := computeTotal items }
  | none =>
    let items := state.items ++ [{ toProduct := p, quantity := 1 }]
    { state with items := items, total := computeTotal items }

/-- `removeFromCart` reducer from `cartSlice.ts`: filter the item out by id,
then recompute the total. -/
def removeFromCart (state : CartState) (pid : ℤ) : CartState :=
  let items := state.items.filter (fun item => !(item.id == pid))
  { state with items := items, total := computeTotal items }

/-- `updateQuantity` reducer from `cartSlice.ts`: if an item with the id
exists, set its quantity to the payload value and recompute the total;
otherwise do nothing. -/
def updateQuantity (state : CartState) (pid : ℤ) (q : ℚ) : CartState :=
  match state.items.find? (fun item => item.id == pid) with
  | some _ =>
    let items := setQuantityOfFirst pid q state.items
    { state with items := items, total := computeTotal items }
  | none => state

/-- `toggleCart` reducer from `cartSlice.ts`. -/
def toggleCart (state : CartState) : CartState :=
  { state with isOpen := !state.isOpen }

/-- `clearCart` reducer from `cartSlice.ts`: empty items, zero total, modal
state unchanged. -/
def clearCart (state : CartState) : CartState :=
  { state with items := [], total := 0 }

/-- The cart slice's action alphabet. -/
inductive CartAction where
  | add (p : Product)
  | remove (pid : ℤ)
  | setQuantity (pid : ℤ) (q : ℚ)
  | toggleOpen
  | clear
deriving DecidableEq, Repr

/-- The cart reducer, dispatching on the action. -/
def cartReducer (state : CartState) : CartAction → CartState
  | .add p => addToCart state p
  | .remove pid => removeFromCart state pid
  | .setQuantity pid q => updateQuantity state pid q
  | .toggleOpen => toggleCart state
  | .clear => clearCart state

/-- Run a sequence of cart actions from the initial empty cart. -/
def runCart (actions : List CartAction) : CartState :=
  actions.foldl cartReducer initialCartState

/-- Product slice state, as in `src/types/index.ts` (`ProductState`). -/
structure ProductState where
  products : List Product
  loading : Bool
  error : Option String
  categories : List String
  selectedCategory : String
deriving DecidableEq, Repr

/-- Initial product state from `productSlice.ts`. -/
def initialProductState : ProductState :=
  { products := [], loading := false, error := none,
    categories := [], selectedCategory := "" }

/-- JavaScript `a || b` on an optional error-message string: the fallback is
used when the message is absent (`undefined`) or falsy (the empty string). -/
def messageOrFallback (msg : Option String) (fallback : String) : String :=
  match msg with
  | some m => if m = "" then fallback else m
  | none => fallback

/-- `fetchProducts.pending` case of `productSlice.ts`: set loading, clear
the error. -/
def fetchProductsPending (state : ProductState) : ProductState :=
  { state with loading := true, error := none }

/-- `fetchProducts.fulfilled` case: stop loading, replace the product list
with the payload. -/
def fetchProductsFulfilled (state : ProductState) (payload : List Product) :
    ProductState :=
  { state with loading := false, products := payload }

/-- `fetchProducts.rejected` case: stop loading, set the error to
`action.error.message || 'failed to fetch products'`. -/
def fetchProductsRejected (state : ProductState) (msg : Option String) :
    ProductState :=
  { state with loading := false,
               error := some (messageOrFallback msg "failed to fetch products") }

/-- `fetchCategories.pending` case of `productSlice.ts`: set loading only
(the error field is not touched). -/
def fetchCategoriesPending (state : ProductState) : ProductState :=
  { state with loading := true }

/-- `fetchCategories.fulfilled` case: stop loading, replace the category
list with the payload. -/
def fetchCategoriesFulfilled (state : ProductState) (payload : List String) :
    ProductState :=
  { state with loading := false, categories := payload }

/-- `fetchCategories.rejected` case: stop loading, set the error to
`action.error.message || 'error fetching categories'`. -/
def fetchCategoriesRejected (state : ProductState) (msg : Option String) :
    ProductState :=
  { state with loading := false,
               error := some (messageOrFallback msg "error fetching categories") }

/-- `setSelectedCategory` reducer of `productSlice.ts`. -/
def setSelectedCategory (state : ProductState) (category : String) :
    ProductState :=
  { state with selectedCategory := category }

/-- `clearError` reducer of `productSlice.ts`. -/
def clearError (state : ProductState) : ProductState :=
  { state with error := none }

/-- The product slice's action alphabet: the two synchronous reducers and
the three lifecycle transitions of each of the two async thunks. -/
inductive ProductAction where
  | productsPending
  | productsFulfilled (payload : List Product)
  | productsRejected (msg : Option String)
  | categoriesPending
  | categoriesFulfilled (payload : List String)
  | categoriesRejected (msg : Option String)
  | selectCategory (category : String)
  | dismissError
deriving DecidableEq, Repr

/-- The product reducer, dispatching on the action. -/
def productReducer (state : ProductState) : ProductAction → ProductState
  | .productsPending => fetchProductsPending state
  | .productsFulfilled payload => fetchProductsFulfilled state payload
  | .productsRejected msg => fetchProductsRejected state msg
  | .categoriesPending => fetchCategoriesPending state
  | .categoriesFulfilled payload => fetchCategoriesFulfilled state payload
  | .categoriesRejected msg => fetchCategoriesRejected state msg
  | .selectCategory category => setSelectedCategory state category
  | .dismissError => clearError state

/-- Whether an action is one of the two `rejected` lifecycle transitions. -/
def ProductAction.isRejected : ProductAction → Bool
  | .productsRejected _ => true
  | .categoriesRejected _ => true
  | _ => false

/-- The operations of the API client (`productService` in
`src/services/api.ts`), viewed abstractly as which endpoint is invoked. -/
inductive ApiRequest where
  | getAllProducts
  | getProductById (id : ℤ)
  | getCategories
  | getProductsByCategory (category : String)
deriving DecidableEq, Repr

/-- The payload creator of the `fetchProducts` thunk in `productSlice.ts`:
`if (category) { return productService.getProductsByCategory(category) }
return productService.getAllProducts()`.  JavaScript truthiness on the
optional string argument: `undefined` and the empty string are falsy. -/
def fetchProductsRequest : Option String → ApiRequest
  | some category =>
    if category = "" then ApiRequest.getAllProducts
    else ApiRequest.getProductsByCategory category
  | none => ApiRequest.getAllProducts

/-- JavaScript `s.toLowerCase()`: lowercase the string character by
character. -/
def jsToLower (s : String) : String :=
  ⟨s.data.map Char.toLower⟩

/-- JavaScript `s.trim()`: drop whitespace characters from both ends. -/
def jsTrim (s : String) : String :=
  ⟨((s.data.dropWhile Char.isWhitespace).reverse.dropWhile
      Char.isWhitespace).reverse⟩

/-- JavaScript `s.includes(query)`: `query` occurs as a contiguous substring
of `s` (on the underlying character lists). -/
def jsIncludes (s query : String) : Bool :=
  decide (query.data <:+: s.data)

/-- The predicate of the `ProductGrid` search filter: the lowercased query
is a substring of the lowercased title, description, or category. -/
def productMatches (query : String) (p : Product) : Bool :=
  jsIncludes (jsToLower p.title) query ||
  jsIncludes (jsToLower p.description) query ||
  jsIncludes (jsToLower p.category) query

/-- `filteredProducts` from `ProductGrid.tsx`: if the trimmed query is empty
(falsy), return the product list unchanged; otherwise lowercase the query
once and keep the products whose lowercased title, description, or category
contains it. -/
def filteredProducts (products : List Product) (searchQuery : String) :
    List Product :=
  if jsTrim searchQuery = "" then products
  else
    let query := jsToLower searchQuery
    products.filter (fun product => productMatches query product)

/-- The inline search-results count rendered by `Home.tsx`: it filters the
product list by the same three-field test (lowercasing the query at each
use) and takes the length — with no guard on blank queries. -/
def homeSearchResultsCount (products : List Product) (searchQuery : String) :
    Nat :=
  (products.filter (fun p =>
    jsIncludes (jsToLower p.title) (jsToLower searchQuery) ||
    jsIncludes (jsToLower p.description) (jsToLower searchQuery) ||
    jsIncludes (jsToLower p.category) (jsToLower searchQuery))).length

/-- Specification-side total: `Σ (item.price × item.quantity)` over the
current line items, written as a sum over the mapped list (the spec's
formula, to be compared with the reducers' left-fold `computeTotal`). -/
def lineItemsTotal (items : List CartItem) : ℚ :=
  (items.map (fun item => item.price * item.quantity)).sum

/-- The product identifiers of the cart's line items, in order. -/
def cartIds (items : List CartItem) : List ℤ :=
  items.map (fun item => item.id)

/-- Specification-side match predicate of the search filter: the lowercased
query is a contiguous substring of the lowercased title, or of the
lowercased description, or of the lowercased category. -/
def specMatches (query : String) (p : Product) : Prop :=
  (jsToLower query).data <:+: (jsToLower p.title).data ∨
  (jsToLower query).data <:+: (jsToLower p.description).data ∨
  (jsToLower query).data <:+: (jsToLower p.category).data

instance (query : String) (p : Product) : Decidable (specMatches query p) := by
  unfold specMatches; infer_instance

/-- Concrete product used by examples: matches the query `"red"` (and
`"shoe"`) by its title. -/
def redShoe : Product :=
  { id := 1, title := "Red Shoe", price := 10, description := "a classic sneaker",
    image := "shoe.png", category := "footwear",
    rating := { rate := 4, count := 20 } }

/-- Concrete product used by examples: matches the query `"red"` by its
category only. -/
def blueHat : Product :=
  { id := 2, title := "Blue Hat", price := 5, description := "a cap",
    image := "hat.png", category := "red accessories",
    rating := { rate := 3, count := 7 } }

/-- Concrete two-product catalog from the spec's search-filter example. -/
def demoCatalog : List Product :=
  [redShoe, blueHat]

/-- Concrete product none of whose fields contains a whitespace character. -/
def plainMug : Product :=
  { id := 7, title := "mug", price := 3, description := "ceramic",
    image := "mug.png", category := "kitchen",
    rating := { rate := 5, count := 1 } }

/-- Concrete one-item cart (one blue hat, consistent total, panel closed). -/
def demoCart : CartState :=
  { items := [{ toProduct := blueHat, quantity := 1 }], total := 5,
    isOpen := false }

/-- Concrete product state carrying a leftover error message. -/
def erroredProductState : ProductState :=
  { products := [], loading := false, error := some "boom",
    categories := [], selectedCategory := "" }

end Shop

namespace Shop

/-! ### Helper lemmas about the cart reducers -/

theorem computeTotal_go (items : List CartItem) (init : ℚ) :
    items.foldl (fun sum item => sum + item.price * item.quantity) init
      = init + lineItemsTotal items := by
  induction items generalizing init with
  | nil => simp [computeTotal, lineItemsTotal]
  | cons i rest ih =>
    simp only [List.foldl_cons, ih, lineItemsTotal, List.map_cons, List.sum_cons]
    ring

theorem computeTotal_eq (items : List CartItem) :
    computeTotal items = lineItemsTotal items := by
  simpa using computeTotal_go items 0

theorem cartIds_append (l₁ l₂ : List CartItem) :
    cartIds (l₁ ++ l₂) = cartIds l₁ ++ cartIds l₂ := by
  simp [cartIds]

theorem cartIds_incQuantityOfFirst (pid : ℤ) (l : List CartItem) :
    cartIds (incQuantityOfFirst pid l) = cartIds l := by
  induction l with
  | nil => rfl
  | cons i rest ih =>
    by_cases h : i.id = pid
    · simp [incQuantityOfFirst, beq_iff_eq, h, cartIds]
    · simpa [incQuantityOfFirst, beq_iff_eq, h, cartIds] using ih

theorem cartIds_setQuantityOfFirst (pid : ℤ) (q : ℚ) (l : List CartItem) :
    cartIds (setQuantityOfFirst pid q l) = cartIds l := by
  induction l with
  | nil => rfl
  | cons i rest ih =>
    by_cases h : i.id = pid
    · simp [setQuantityOfFirst, beq_iff_eq, h, cartIds]
    · simpa [setQuantityOfFirst, beq_iff_eq, h, cartIds] using ih

theorem map_update_eq_self (l : List CartItem) (pid : ℤ)
    (f : CartItem → CartItem) (h : ∀ i ∈ l, i.id ≠ pid) :
    l.map (fun i => if i.id = pid then f i else i) = l := by
  conv_rhs => rw [← List.map_id l]
  exact List.map_congr_left (fun a ha => by simp [h a ha])

theorem incQuantityOfFirst_eq_map (pid : ℤ) (l : List CartItem)
    (hu : (cartIds l).Nodup) :
    incQuantityOfFirst pid l
      = l.map (fun i =>
          if i.id = pid then { i with quantity := i.quantity + 1 } else i) := by
  induction l with
  | nil => rfl
  | cons i rest ih =>
    have hu' : i.id ∉ cartIds rest ∧ (cartIds rest).Nodup := by
      simpa [cartIds] using hu
    by_cases h : i.id = pid
    · have hrest : ∀ j ∈ rest, j.id ≠ pid := by
        intro j hj hjp
        exact hu'.1 (h ▸ hjp ▸ List.mem_map_of_mem (fun x => x.id) hj)
      simp [incQuantityOfFirst, beq_iff_eq, h,
        map_update_eq_self rest pid _ hrest]
    · simp [incQuantityOfFirst, beq_iff_eq, h, ih hu'.2]

theorem setQuantityOfFirst_eq_map (pid : ℤ) (q : ℚ) (l : List CartItem)
    (hu : (cartIds l).Nodup) :
    setQuantityOfFirst pid q l
      = l.map (fun i => if i.id = pid then { i with quantity := q } else i) := by
  induction l with
  | nil => rfl
  | cons i rest ih =>
    have hu' : i.id ∉ cartIds rest ∧ (cartIds rest).Nodup := by
      simpa [cartIds] using hu
    by_cases h : i.id = pid
    · have hrest : ∀ j ∈ rest, j.id ≠ pid := by
        intro j hj hjp
        exact hu'.1 (h ▸ hjp ▸ List.mem_map_of_mem (fun x => x.id) hj)
      simp [setQuantityOfFirst, beq_iff_eq, h,
        map_update_eq_self rest pid _ hrest]
    · simp [setQuantityOfFirst, beq_iff_eq, h, ih hu'.2]

theorem incQuantityOfFirst_append (pid : ℤ) (l : List CartItem) (x : CartItem)
    (h : ∀ i ∈ l, i.id ≠ pid) (hx : x.id = pid) :
    incQuantityOfFirst pid (l ++ [x])
      = l ++ [{ x with quantity := x.quantity + 1 }] := by
  induction l with
  | nil => simp [incQuantityOfFirst, beq_iff_eq, hx]
  | cons i rest ih =>
    have hi : i.id ≠ pid := h i (by simp)
    simp [incQuantityOfFirst, beq_iff_eq, hi,
      ih (fun j hj => h j (by simp [hj]))]

theorem addToCart_of_find?_none (s : CartState) (P : Product)
    (h : s.items.find? (fun item => item.id == P.id) = none) :
    addToCart s P
      = { s with items := s.items ++ [{ toProduct := P, quantity := 1 }],
                 total := computeTotal
                   (s.items ++ [{ toProduct := P, quantity := 1 }]) } := by
  simp [addToCart, h]

theorem addToCart_of_find?_isSome (s : CartState) (P : Product)
    (h : (s.items.find? (fun item => item.id == P.id)).isSome = true) :
    addToCart s P
      = { s with items := incQuantityOfFirst P.id s.items,
                 total := computeTotal (incQuantityOfFirst P.id s.items) } := by
  obtain ⟨x, hx⟩ := Option.isSome_iff_exists.mp h
  simp [addToCart, hx]

theorem updateQuantity_of_find?_isSome (s : CartState) (pid : ℤ) (q : ℚ)
    (h : (s.items.find? (fun item => item.id == pid)).isSome = true) :
    updateQuantity s pid q
      = { s with items := setQuantityOfFirst pid q s.items,
                 total := computeTotal (setQuantityOfFirst pid q s.items) } := by
  obtain ⟨x, hx⟩ := Option.isSome_iff_exists.mp h
  simp [updateQuantity, hx]

theorem updateQuantity_of_find?_none (s : CartState) (pid : ℤ) (q : ℚ)
    (h : s.items.find? (fun item => item.id == pid) = none) :
    updateQuantity s pid q = s := by
  simp [updateQuantity, h]

end Shop

namespace Shop

theorem cartReducer_preserves_total (s : CartState) (a : CartAction)
    (h : s.total = lineItemsTotal s.items) :
    (cartReducer s a).total = lineItemsTotal (cartReducer s a).items := by
  cases a with
  | add p =>
    cases hf : s.items.find? (fun item => item.id == p.id) with
    | none =>
      simp [cartReducer, addToCart_of_find?_none s p hf, computeTotal_eq]
    | some x =>
      simp [cartReducer, addToCart_of_find?_isSome s p (by simp [hf]),
        computeTotal_eq]
  | remove pid =>
    simp [cartReducer, removeFromCart, computeTotal_eq]
  | setQuantity pid q =>
    cases hf : s.items.find? (fun item => item.id == pid) with
    | none =>
      simpa [cartReducer, updateQuantity_of_find?_none s pid q hf] using h
    | some x =>
      simp [cartReducer, updateQuantity_of_find?_isSome s pid q (by simp [hf]),
        computeTotal_eq]
  | toggleOpen =>
    simpa [cartReducer, toggleCart] using h
  | clear =>
    simp [cartReducer, clearCart, lineItemsTotal]

theorem cartReducer_preserves_nodup (s : CartState) (a : CartAction)
    (h : (cartIds s.items).Nodup) :
    (cartIds (cartReducer s a).items).Nodup := by
  cases a with
  | add p =>
    cases hf : s.items.find? (fun item => item.id == p.id) with
    | none =>
      have hnot : ∀ i ∈ s.items, i.id ≠ p.id := by
        intro i hi
        simpa using List.find?_eq_none.mp hf i hi
      rw [cartReducer, addToCart_of_find?_none s p hf]
      simp only [cartIds_append]
      refine List.nodup_append.mpr ⟨h, by simp [cartIds], ?_⟩
      intro x hx hx'
      simp [cartIds] at hx hx'
      obtain ⟨i, hi, hix⟩ := hx
      exact hnot i hi (hx' ▸ hix)
    | some x =>
      rw [cartReducer, addToCart_of_find?_isSome s p (by simp [hf])]
      simpa [cartIds_incQuantityOfFirst] using h
  | remove pid =>
    simp only [cartReducer, removeFromCart, cartIds]
    exact List.Nodup.sublist
      (List.Sublist.map _ (List.filter_sublist s.items)) (by simpa [cartIds] using h)
  | setQuantity pid q =>
    cases hf : s.items.find? (fun item => item.id == pid) with
    | none =>
      simpa [cartReducer, updateQuantity_of_find?_none s pid q hf] using h
    | some x =>
      rw [cartReducer, updateQuantity_of_find?_isSome s pid q (by simp [hf])]
      simpa [cartIds_setQuantityOfFirst] using h
  | toggleOpen =>
    simpa [cartReducer, toggleCart] using h
  | clear =>
    simp [cartReducer, clearCart, cartIds]

/-- Claim C1: for every sequence of cart operations (add, remove,
setQuantity, clear, toggleOpen) applied to the initial empty cart, the
resulting cart's `total` field equals the sum over all current line items of
price times quantity.  Since every reachable intermediate cart is itself
`runCart` of a prefix, the total matches the recomputed sum after each
operation. -/
theorem cart_total_consistency (actions : List CartAction) :
    (runCart actions).total = lineItemsTotal (runCart actions).items := by
  suffices h : ∀ (acts : List CartAction) (s : CartState),
      s.total = lineItemsTotal s.items →
      (acts.foldl cartReducer s).total
        = lineItemsTotal (acts.foldl cartReducer s).items by
    exact h actions initialCartState (by simp [initialCartState, lineItemsTotal])
  intro acts
  induction acts with
  | nil => exact fun s hs => hs
  | cons a rest ih =>
    intro s hs
    exact ih _ (cartReducer_preserves_total s a hs)

/-- Claim C6: every cart state reachable from the initial empty cart by any
sequence of cart operations has pairwise distinct line-item product
identifiers. -/
theorem cart_unique_ids (actions : List CartAction) :
    (cartIds (runCart actions).items).Nodup := by
  suffices h : ∀ (acts : List CartAction) (s : CartState),
      (cartIds s.items).Nodup →
      (cartIds (acts.foldl cartReducer s).items).Nodup by
    exact h actions initialCartState (by simp [initialCartState, cartIds])
  intro acts
  induction acts with
  | nil => exact fun s hs => hs
  | cons a rest ih =>
    intro s hs
    exact ih _ (cartReducer_preserves_nodup s a hs)

end Shop

namespace Shop

/-- Claim C5: adding a product increments the quantity of the existing line
item with that product's id by 1 when one exists, and otherwise appends a
new line item with quantity 1; in particular, two consecutive adds of the
same product to a cart not containing its id yield a single appended line
item with quantity 2, not two line items. -/
theorem addToCart_semantics (s : CartState) (P : Product)
    (hu : (cartIds s.items).Nodup) :
    ((∀ i ∈ s.items, i.id ≠ P.id) →
        (addToCart s P).items
          = s.items ++ [{ toProduct := P, quantity := 1 }] ∧
        (addToCart (addToCart s P) P).items
          = s.items ++ [{ toProduct := P, quantity := 2 }]) ∧
    ((∃ i ∈ s.items, i.id = P.id) →
        (addToCart s P).items
          = s.items.map (fun i =>
              if i.id = P.id then { i with quantity := i.quantity + 1 }
              else i)) := by
  constructor
  · intro hnone
    have hf : s.items.find? (fun item => item.id == P.id) = none :=
      List.find?_eq_none.mpr (fun i hi => by simpa using hnone i hi)
    have h1 : (addToCart s P).items
        = s.items ++ [{ toProduct := P, quantity := 1 }] := by
      rw [addToCart_of_find?_none s P hf]
    refine ⟨h1, ?_⟩
    have hsome :
        ((addToCart s P).items.find?
          (fun item => item.id == P.id)).isSome = true := by
      rw [h1, List.find?_isSome]
      exact ⟨{ toProduct := P, quantity := 1 }, by simp, by simp⟩
    rw [addToCart_of_find?_isSome (addToCart s P) P hsome]
    show incQuantityOfFirst P.id (addToCart s P).items = _
    rw [h1, incQuantityOfFirst_append P.id s.items _ hnone rfl]
    norm_num
  · intro hex
    have hsome :
        (s.items.find? (fun item => item.id == P.id)).isSome = true := by
      rw [List.find?_isSome]
      obtain ⟨i, hi, hid⟩ := hex
      exact ⟨i, hi, by simp [hid]⟩
    rw [addToCart_of_find?_isSome s P hsome]
    simpa using incQuantityOfFirst_eq_map P.id s.items hu

/-- Witness for C5 at the empty cart and the concrete product `redShoe`. -/
theorem addToCart_semantics_witness :
    (cartIds initialCartState.items).Nodup ∧
    (((∀ i ∈ initialCartState.items, i.id ≠ redShoe.id) →
        (addToCart initialCartState redShoe).items
          = initialCartState.items ++ [{ toProduct := redShoe, quantity := 1 }] ∧
        (addToCart (addToCart initialCartState redShoe) redShoe).items
          = initialCartState.items
              ++ [{ toProduct := redShoe, quantity := 2 }]) ∧
     ((∃ i ∈ initialCartState.items, i.id = redShoe.id) →
        (addToCart initialCartState redShoe).items
          = initialCartState.items.map (fun i =>
              if i.id = redShoe.id then { i with quantity := i.quantity + 1 }
              else i))) :=
  ⟨by decide, addToCart_semantics initialCartState redShoe (by decide)⟩

/-- Claim C4: `updateQuantity` writes the given quantity verbatim (zero and
negative values included) into the matching line item and recomputes the
total; when no line item matches, the state is unchanged. -/
theorem updateQuantity_semantics (s : CartState) (pid : ℤ) (q : ℚ)
    (hu : (cartIds s.items).Nodup) :
    ((∃ i ∈ s.items, i.id = pid) →
        (updateQuantity s pid q).items
          = s.items.map (fun i =>
              if i.id = pid then { i with quantity := q } else i) ∧
        (updateQuantity s pid q).total
          = lineItemsTotal (updateQuantity s pid q).items ∧
        (updateQuantity s pid q).isOpen = s.isOpen) ∧
    ((∀ i ∈ s.items, i.id ≠ pid) → updateQuantity s pid q = s) := by
  constructor
  · intro hex
    have hsome :
        (s.items.find? (fun item => item.id == pid)).isSome = true := by
      rw [List.find?_isSome]
      obtain ⟨i, hi, hid⟩ := hex
      exact ⟨i, hi, by simp [hid]⟩
    rw [updateQuantity_of_find?_isSome s pid q hsome]
    refine ⟨by simpa using setQuantityOfFirst_eq_map pid q s.items hu, ?_, rfl⟩
    simpa using computeTotal_eq (setQuantityOfFirst pid q s.items)
  · intro hnone
    exact updateQuantity_of_find?_none s pid q
      (List.find?_eq_none.mpr (fun i hi => by simpa using hnone i hi))

/-- Witness for C4 at a one-item cart, writing through the negative
quantity `-3`. -/
theorem updateQuantity_semantics_witness :
    (cartIds demoCart.items).Nodup ∧
    (((∃ i ∈ demoCart.items, i.id = 2) →
        (updateQuantity demoCart 2 (-3)).items
          = demoCart.items.map (fun i =>
              if i.id = 2 then { i with quantity := -3 } else i) ∧
        (updateQuantity demoCart 2 (-3)).total
          = lineItemsTotal (updateQuantity demoCart 2 (-3)).items ∧
        (updateQuantity demoCart 2 (-3)).isOpen = demoCart.isOpen) ∧
     ((∀ i ∈ demoCart.items, i.id ≠ 2) →
        updateQuantity demoCart 2 (-3) = demoCart)) :=
  ⟨by decide, updateQuantity_semantics demoCart 2 (-3) (by decide)⟩

end Shop

namespace Shop

/-- Claim C3: the `fetchProducts` lifecycle — pending sets `loading = true`
and `error = null`; fulfilled sets `loading = false` and replaces `products`
with exactly the payload; rejected sets `loading = false`, leaves `products`
unchanged, and stores a non-null error string: the failure's message when it
is a non-empty string, and the fixed fallback `failed to fetch products`
when no message is available. -/
theorem fetchProducts_lifecycle (s : ProductState) (payload : List Product)
    (msg : Option String) :
    ((fetchProductsPending s).loading = true ∧
     (fetchProductsPending s).error = none ∧
     (fetchProductsPending s).products = s.products) ∧
    ((fetchProductsFulfilled s payload).loading = false ∧
     (fetchProductsFulfilled s payload).products = payload) ∧
    ((fetchProductsRejected s msg).loading = false ∧
     (fetchProductsRejected s msg).products = s.products ∧
     (fetchProductsRejected s msg).error ≠ none ∧
     (∀ m : String, msg = some m → m ≠ "" →
        (fetchProductsRejected s msg).error = some m) ∧
     ((msg = none ∨ msg = some "") →
        (fetchProductsRejected s msg).error
          = some "failed to fetch products")) := by
  refine ⟨⟨rfl, rfl, rfl⟩, ⟨rfl, rfl⟩, rfl, rfl, by simp [fetchProductsRejected], ?_, ?_⟩
  · intro m hm hne
    simp [fetchProductsRejected, messageOrFallback, hm, hne]
  · intro hm
    rcases hm with hm | hm <;>
      simp [fetchProductsRejected, messageOrFallback, hm]

/-- Claim C2 counterexample: starting from a state whose `error` is the
stale message `boom`, the `fetchCategories` pending transition sets
`loading` but does not clear the error to null, contradicting the claim
that either fetch workflow clears `error` at the start of the attempt. -/
theorem fetchCategoriesPending_keeps_stale_error :
    (productReducer erroredProductState ProductAction.categoriesPending).loading
      = true ∧
    (productReducer erroredProductState ProductAction.categoriesPending).error
      = some "boom" ∧
    (productReducer erroredProductState ProductAction.categoriesPending).error
      ≠ none := by
  decide

/-- Claim C2 (amended): the `fetchProducts` pending transition sets
`loading = true` and clears `error` to null; the `fetchCategories` pending
transition sets `loading = true` but leaves `error` unchanged; and `error`
is set to a non-null message only by the two rejected transitions — every
non-rejected transition leaves `error` null or unchanged, while both
rejected transitions always store a non-null message. -/
theorem pending_and_error_discipline (s : ProductState) :
    ((productReducer s ProductAction.productsPending).loading = true ∧
     (productReducer s ProductAction.productsPending).error = none) ∧
    ((productReducer s ProductAction.categoriesPending).loading = true ∧
     (productReducer s ProductAction.categoriesPending).error = s.error) ∧
    (∀ a : ProductAction, a.isRejected = false →
       (productReducer s a).error = none ∨
       (productReducer s a).error = s.error) ∧
    (∀ msg : Option String,
       (productReducer s (ProductAction.productsRejected msg)).error ≠ none ∧
       (productReducer s (ProductAction.categoriesRejected msg)).error
         ≠ none) := by
  refine ⟨⟨rfl, rfl⟩, ⟨rfl, rfl⟩, ?_, ?_⟩
  · intro a ha
    cases a <;>
      simp_all [productReducer, ProductAction.isRejected, fetchProductsPending,
        fetchProductsFulfilled, fetchCategoriesPending, fetchCategoriesFulfilled,
        setSelectedCategory, clearError]
  · intro msg
    exact ⟨by simp [productReducer, fetchProductsRejected],
           by simp [productReducer, fetchCategoriesRejected]⟩

/-- Claim C9: the `fetchProducts` thunk requests the category-scoped
endpoint exactly when its argument is a present, non-empty string, and the
all-products endpoint otherwise (argument absent or empty); in particular
`fetchProducts("electronics")` hits the category-scoped endpoint, never the
all-products one. -/
theorem fetchProductsRequest_dispatch :
    (∀ c : Option String,
        fetchProductsRequest c = ApiRequest.getAllProducts
          ↔ (c = none ∨ c = some "")) ∧
    (∀ c : String, c = "" ∨
        fetchProductsRequest (some c) = ApiRequest.getProductsByCategory c) ∧
    fetchProductsRequest (some "electronics")
      = ApiRequest.getProductsByCategory "electronics" ∧
    fetchProductsRequest (some "electronics") ≠ ApiRequest.getAllProducts ∧
    fetchProductsRequest none = ApiRequest.getAllProducts ∧
    fetchProductsRequest (some "") = ApiRequest.getAllProducts := by
  refine ⟨?_, ?_, by decide, by decide, by decide, by decide⟩
  · intro c
    match c with
    | none => simp [fetchProductsRequest]
    | some c' =>
      by_cases h : c' = "" <;> simp [fetchProductsRequest, h]
  · intro c
    by_cases h : c = ""
    · exact Or.inl h
    · exact Or.inr (by simp [fetchProductsRequest, h])

end Shop

namespace Shop

theorem productMatches_eq_decide (q : String) (p : Product) :
    productMatches (jsToLower q) p = decide (specMatches q p) := by
  simp [productMatches, jsIncludes, specMatches, Bool.decide_or,
    Bool.or_assoc]

theorem jsToLower_empty : jsToLower "" = "" := by decide

theorem jsIncludes_empty_query (s : String) : jsIncludes s "" = true :=
  decide_eq_true List.nil_infix

/-- Claim C7: for a query with non-empty trimmed form, the `ProductGrid`
filter returns exactly the products whose lowercased title, description, or
category contains the lowercased query as a contiguous substring, in the
input list's order; on the spec's example catalog, querying `red` keeps both
products and querying `shoe` keeps only the first. -/
theorem filteredProducts_matching (products : List Product) (q : String)
    (h : jsTrim q ≠ "") :
    filteredProducts products q
      = products.filter (fun p => decide (specMatches q p)) ∧
    (filteredProducts products q).Sublist products ∧
    (∀ p : Product,
        p ∈ filteredProducts products q ↔ p ∈ products ∧ specMatches q p) ∧
    filteredProducts demoCatalog "red" = [redShoe, blueHat] ∧
    filteredProducts demoCatalog "shoe" = [redShoe] := by
  have hfilter : filteredProducts products q
      = products.filter (fun p => decide (specMatches q p)) := by
    simp only [filteredProducts, if_neg h]
    exact List.filter_congr (fun p _ => productMatches_eq_decide q p)
  refine ⟨hfilter, hfilter ▸ List.filter_sublist products, ?_, by decide,
    by decide⟩
  intro p
  rw [hfilter, List.mem_filter]
  simp

/-- Witness for C7 on the spec's example catalog with the query `red`. -/
theorem filteredProducts_matching_witness :
    jsTrim "red" ≠ "" ∧
    (filteredProducts demoCatalog "red"
        = demoCatalog.filter (fun p => decide (specMatches "red" p)) ∧
     (filteredProducts demoCatalog "red").Sublist demoCatalog ∧
     (∀ p : Product,
        p ∈ filteredProducts demoCatalog "red"
          ↔ p ∈ demoCatalog ∧ specMatches "red" p) ∧
     filteredProducts demoCatalog "red" = [redShoe, blueHat] ∧
     filteredProducts demoCatalog "shoe" = [redShoe]) :=
  ⟨by decide, filteredProducts_matching demoCatalog "red" (by decide)⟩

/-- Claim C8: filtering with a query whose trimmed form is empty returns
the input product list unchanged. -/
theorem filteredProducts_blank_query (products : List Product) (q : String)
    (h : jsTrim q = "") :
    filteredProducts products q = products := by
  simp only [filteredProducts, if_pos h]

/-- Witness for C8 with a whitespace-only query. -/
theorem filteredProducts_blank_query_witness :
    jsTrim "   " = "" ∧ filteredProducts demoCatalog "   " = demoCatalog :=
  ⟨by decide, filteredProducts_blank_query demoCatalog "   " (by decide)⟩

/-- Claim C10 counterexample: on a one-product catalog none of whose fields
contains a space, the whitespace-only query `" "` makes the Home page's
inline count 0 while the `ProductGrid` filter (whose blank-query guard
returns the whole list) keeps 1 product, so the two implementations
disagree. -/
theorem homeSearchCount_mismatch :
    homeSearchResultsCount [plainMug] " " = 0 ∧
    (filteredProducts [plainMug] " ").length = 1 ∧
    homeSearchResultsCount [plainMug] " "
      ≠ (filteredProducts [plainMug] " ").length := by
  decide

/-- Claim C10 (amended): the Home page's inline search-results count equals
the length of the `ProductGrid` filter's output for every product list and
every query that is either the empty string or has a non-empty trimmed
form; the two disagree only on whitespace-only non-empty queries, where the
grid's blank-query guard returns the whole list while the inline count
still requires the whitespace substring to occur. -/
theorem homeSearchCount_agrees (products : List Product) (q : String)
    (h : q = "" ∨ jsTrim q ≠ "") :
    homeSearchResultsCount products q
      = (filteredProducts products q).length := by
  rcases h with h | h
  · subst h
    simp only [filteredProducts, if_pos (show jsTrim "" = "" by decide)]
    simp [homeSearchResultsCount, jsToLower_empty, jsIncludes_empty_query,
      List.filter_true]
  · simp only [filteredProducts, if_neg h]
    rfl

/-- Witness for the amended C10 at the example catalog and the query
`red`. -/
theorem homeSearchCount_agrees_witness :
    ("red" = "" ∨ jsTrim "red" ≠ "") ∧
    homeSearchResultsCount demoCatalog "red"
      = (filteredProducts demoCatalog "red").length :=
  ⟨Or.inr (by decide),
   homeSearchCount_agrees demoCatalog "red" (Or.inr (by decide))⟩

end Shop
